import Mathlib

/-!
Verification of scripts/sync_ec2ip_to_alidns.py.

The script is a single reconciliation step: detect the instance's public
IPv4 address via the instance metadata service (two curl subprocess calls),
query the Alibaba Cloud DNS API for the domain's records, and update the
first record when its value differs from the detected address.

The embedding models one run as a pure function of a `World`: the
environment variables and the outcomes of every external interaction
(subprocess calls, client initialisation, the two API calls).  The run
result records the exit code, the network calls issued, and the lines
printed to stdout and stderr.
-/

/-- Drop leading whitespace characters of a character list. -/
def dropWs : List Char → List Char
  | [] => []
  | c :: cs => if c.isWhitespace then dropWs cs else c :: cs

/-- Python str.strip with no argument (whitespace on both ends), as applied
to the decoded curl output. -/
def pyStrip (s : String) : String :=
  String.mk (dropWs (dropWs s.toList.reverse).reverse)

/-- Python s.count for a single character: number of occurrences of c in s. -/
def countChar (s : String) (c : Char) : Nat :=
  (s.toList.filter (fun x => x = c)).length

/-- Character-list prefix test (building block for substring containment). -/
def listPre : List Char → List Char → Bool
  | [], _ => true
  | _ :: _, [] => false
  | a :: as, b :: bs => a = b && listPre as bs

/-- Character-list containment of pat somewhere inside s. -/
def listSub (pat : List Char) : List Char → Bool
  | [] => pat.isEmpty
  | b :: bs => listPre pat (b :: bs) || listSub pat bs

/-- Python membership test pat in s on strings (substring containment). -/
def pyIn (pat s : String) : Bool := listSub pat.toList s.toList

/-- One provider-side DNS record as exposed by DescribeDomainRecords. -/
structure DnsRecord where
  record_id : String
  rr : String
  type_ : String
  value : String
  ttl : Nat
deriving DecidableEq, Repr

/-- The DescribeDomainRecordsRequest the script builds (only the domain
name is set; no RR or type filter). -/
structure DescribeDomainRecordsRequest where
  domain_name : String
deriving DecidableEq, Repr

/-- The UpdateDomainRecordRequest the script builds. -/
structure UpdateDomainRecordRequest where
  record_id : String
  rr : String
  type_ : String
  value : String
  ttl : Nat
deriving DecidableEq, Repr

/-- Exceptions a subprocess.check_output call may raise; all of these
derive from Exception in Python, so the final except clause catches any
of them. -/
inductive PyErr where
  | timeoutExpired
  | calledProcessError (msg : String)
  | otherExc (msg : String)
deriving DecidableEq, Repr

/-- Outcome of one curl invocation: the decoded output, or a raised
exception. -/
inductive CurlOutcome where
  | out (s : String)
  | raise (e : PyErr)
deriving DecidableEq, Repr

/-- External calls the script can issue.  addDomainRecordCall is the
provider's record-creation operation; it is part of the provider API but
the script never issues it. -/
inductive Call where
  | tokenCall
  | ipCall
  | describeCall (req : DescribeDomainRecordsRequest)
  | updateCall (req : UpdateDomainRecordRequest)
  | addDomainRecordCall
deriving DecidableEq, Repr

/-- The external environment of one run: environment variables and the
responses of every external service the script touches. -/
structure World where
  envAccessKeyId : Option String
  envAccessKeySecret : Option String
  envDebug : Option String
  curlOnPath : Bool
  tokenCall : CurlOutcome
  ipCall : CurlOutcome
  clientInit : Except String Unit
  describe : Except String (List DnsRecord)
  update : Except String String
  now : String
deriving Repr

/-- ACCESS_KEY_ID = os.environ.get with default LTAI5XXXXX. -/
def ACCESS_KEY_ID (w : World) : String := w.envAccessKeyId.getD "LTAI5XXXXX"

/-- ACCESS_KEY_SECRET = os.environ.get with default PCLxYYYYY. -/
def ACCESS_KEY_SECRET (w : World) : String := w.envAccessKeySecret.getD "PCLxYYYYY"

/-- DOMAIN_NAME constant. -/
def DOMAIN_NAME : String := "goodgood.top"

/-- RR constant (root label). -/
def RR : String := "@"

/-- RECORD_TYPE constant. -/
def RECORD_TYPE : String := "A"

/-- TTL constant in seconds. -/
def TTL : Nat := 600

/-- Result of get_public_ip: the returned value, the subprocess calls made,
and the stderr lines printed. -/
structure GpiResult where
  ip : Option String
  calls : List Call
  stderr : List String
deriving DecidableEq, Repr

/-- The try-block body of get_public_ip.  An error value is an exception
escaping the block, paired with the calls already made. -/
def get_public_ip_try (w : World) : Except (PyErr × List Call) GpiResult :=
  match w.tokenCall with
  | .raise e => .error (e, [Call.tokenCall])
  | .out s =>
    let token := pyStrip s
    if token = "" then
      .ok { ip := none, calls := [Call.tokenCall],
            stderr := ["错误: 无法获取 IMDS token"] }
    else
      match w.ipCall with
      | .raise e => .error (e, [Call.tokenCall, Call.ipCall])
      | .out s2 =>
        let ip := pyStrip s2
        if ip ≠ "" ∧ countChar ip '.' = 3 then
          .ok { ip := some ip, calls := [Call.tokenCall, Call.ipCall],
                stderr := [] }
        else
          .ok { ip := none, calls := [Call.tokenCall, Call.ipCall],
                stderr := [s!"错误: 获取到的 IP 格式不正确: {ip}"] }

/-- get_public_ip viewed as a Python callable: either a return value or an
exception propagated to the caller.  The curl existence check precedes the
try block; the three except clauses map each exception class to a None
return. -/
def get_public_ip (w : World) : Except PyErr GpiResult :=
  if w.curlOnPath = false then
    .ok { ip := none, calls := [],
          stderr := ["错误: 未找到 curl 命令，请先安装 curl"] }
  else
    match get_public_ip_try w with
    | .ok r => .ok r
    | .error (.timeoutExpired, cs) =>
      .ok { ip := none, calls := cs,
            stderr := ["错误: 获取公网 IP 超时（可能不在 AWS EC2 环境中）"] }
    | .error (.calledProcessError m, cs) =>
      .ok { ip := none, calls := cs,
            stderr := [s!"错误: curl 命令执行失败: {m}"] }
    | .error (.otherExc m, cs) =>
      .ok { ip := none, calls := cs,
            stderr := [s!"错误: 获取公网 IP 失败: {m}"] }

/-- The IP value get_public_ip hands to main (none on any failure path). -/
def returnedIp (w : World) : Option String :=
  match get_public_ip w with
  | .ok g => g.ip
  | .error _ => none

/-- Result of one run of main: the process exit code, the external calls
issued, and the stdout and stderr lines. -/
structure RunResult where
  exit : Nat
  calls : List Call
  stdout : List String
  stderr : List String
deriving DecidableEq, Repr

/-- Hint lines produced by the if/elif chain in main's except block,
matching known provider error codes as substrings of str(e). -/
def errHints (e : String) : List String :=
  if pyIn "InvalidAccessKeyId" e then ["提示: ACCESS_KEY_ID 无效，请检查配置"]
  else if pyIn "SignatureDoesNotMatch" e then ["提示: ACCESS_KEY_SECRET 错误，请检查配置"]
  else if pyIn "Forbidden.RAM" e then ["提示: RAM 权限不足，需要 AliyunDNSFullAccess 权限"]
  else []

/-- The except-branch of main's try block: print the failure, then the
hint chain, then sys.exit(1). -/
def apiFail (e : String) (callsAcc : List Call) (stdoutAcc stderrAcc : List String) :
    RunResult :=
  { exit := 1, calls := callsAcc, stdout := stdoutAcc,
    stderr := stderrAcc ++ [s!"\n阿里云 API 调用失败: {e}"] ++ errHints e }

namespace Script

/-- The main function of the script as a function of the external world.
Reaching the end of main without sys.exit ends the process with code 0. -/
def main (w : World) : RunResult :=
  let t := w.now
  let startLines := [">>>>>", s!"开始执行时间: {t}"]
  if ACCESS_KEY_ID w = "" ∨ ACCESS_KEY_ID w = "LTAIxxxxxxx" then
    { exit := 1, calls := [], stdout := startLines,
      stderr := ["错误: 请配置有效的 ACCESS_KEY_ID"] }
  else if ACCESS_KEY_SECRET w = "" ∨ ACCESS_KEY_SECRET w = "PCLxyyyyy" then
    { exit := 1, calls := [], stdout := startLines,
      stderr := ["错误: 请配置有效的 ACCESS_KEY_SECRET"] }
  else
    match get_public_ip w with
    | .error _ =>
      { exit := 1, calls := [], stdout := startLines, stderr := [] }
    | .ok g =>
      match g.ip with
      | none =>
        { exit := 1, calls := g.calls,
          stdout := startLines ++ ["无法获取当前实例的公网 IP，退出"],
          stderr := g.stderr }
      | some current_ip =>
        let ipLine := s!"当前实例公网 IP: {current_ip}"
        match w.clientInit with
        | .error e =>
          { exit := 1, calls := g.calls, stdout := startLines ++ [ipLine],
            stderr := g.stderr ++ [s!"错误: 初始化阿里云客户端失败: {e}"] }
        | .ok _ =>
          let describe_request : DescribeDomainRecordsRequest :=
            { domain_name := DOMAIN_NAME }
          let queryLine := s!"\n正在查询 {RR}.{DOMAIN_NAME} 的 DNS 记录..."
          let calls1 := g.calls ++ [Call.describeCall describe_request]
          let out1 := startLines ++ [ipLine, queryLine]
          match w.describe with
          | .error e => apiFail e calls1 out1 g.stderr
          | .ok records =>
            match records with
            | [] =>
              { exit := 1, calls := calls1,
                stdout := out1 ++
                  [s!"未找到 {RR}.{DOMAIN_NAME} 的 {RECORD_TYPE} 记录",
                   "提示: 请先在阿里云 DNS 控制台手动创建该记录"],
                stderr := g.stderr }
            | record :: _ =>
              let record_id := record.record_id
              let current_dns_ip := record.value
              let ttl0 := record.ttl
              let out2 := out1 ++
                [s!"当前 DNS 记录 IP: {current_dns_ip}",
                 s!"记录 ID: {record_id}",
                 s!"TTL: {ttl0}秒"]
              if current_ip = current_dns_ip then
                { exit := 0, calls := calls1,
                  stdout := out2 ++ ["IP 地址未变化，无需更新"],
                  stderr := g.stderr }
              else
                let update_request : UpdateDomainRecordRequest :=
                  { record_id := record_id, rr := RR, type_ := RECORD_TYPE,
                    value := current_ip, ttl := TTL }
                let calls2 := calls1 ++ [Call.updateCall update_request]
                let out3 := out2 ++
                  [s!"检测到 IP 变化: {current_dns_ip} → {current_ip}",
                   "正在更新 DNS 记录..."]
                match w.update with
                | .error e => apiFail e calls2 out3 g.stderr
                | .ok newId =>
                  let debugLines :=
                    match w.envDebug with
                    | none => []
                    | some d => if d = "" then [] else ["\n详细响应:"]
                  { exit := 0, calls := calls2,
                    stdout := out3 ++
                      ["DNS 更新成功！", s!"新IP: {current_ip}",
                       s!"记录ID: {newId}", s!"生效时间: 约 {TTL} 秒"] ++
                      debugLines,
                    stderr := g.stderr }

end Script

/-- The update requests among a list of calls. -/
def updateReqs (cs : List Call) : List UpdateDomainRecordRequest :=
  cs.filterMap (fun c => match c with | .updateCall r => some r | _ => none)

/-- The describe requests among a list of calls. -/
def describeReqs (cs : List Call) : List DescribeDomainRecordsRequest :=
  cs.filterMap (fun c => match c with | .describeCall r => some r | _ => none)

/-- Whether a call is the provider's record-creation operation. -/
def isCreateCall : Call → Bool
  | .addDomainRecordCall => true
  | _ => false

/-- The configuration check of main passes (neither key is empty or equal
to the compared placeholder literal). -/
def cfgOkB (w : World) : Bool :=
  !(ACCESS_KEY_ID w == "" || ACCESS_KEY_ID w == "LTAIxxxxxxx") &&
  !(ACCESS_KEY_SECRET w == "" || ACCESS_KEY_SECRET w == "PCLxyyyyy")

/-- Error classification implemented by the if/elif chain in main's except
block: authentication, signature, authorization, or other. -/
inductive ErrClass where
  | auth | sig | ram | other
deriving DecidableEq, Repr

/-- Classify a provider error message exactly as main's except block does. -/
def classifyErr (e : String) : ErrClass :=
  if pyIn "InvalidAccessKeyId" e then .auth
  else if pyIn "SignatureDoesNotMatch" e then .sig
  else if pyIn "Forbidden.RAM" e then .ram
  else .other

/-- Split a character list at every dot. -/
def splitDots : List Char → List (List Char)
  | [] => [[]]
  | c :: rest =>
    match splitDots rest with
    | [] => []
    | p :: ps => if c = '.' then [] :: p :: ps else (c :: p) :: ps

/-- Decimal value of a digit list. -/
def digitsVal (cs : List Char) : Nat :=
  cs.foldl (fun a c => a * 10 + (c.toNat - 48)) 0

/-- Spec-side definition (for refinement comparison only): a well-formed
dotted-quad IPv4 string, four decimal fields 0..255 separated by dots. -/
def isDottedQuadIPv4 (s : String) : Bool :=
  let parts := splitDots s.toList
  parts.length = 4 && parts.all (fun p =>
    !p.isEmpty && p.all Char.isDigit && digitsVal p ≤ 255)

/-- Modelled from the spec: the provider's update-record operation (by
record ID, name, type, value, TTL); the provider itself is not part of the
repository, only the client call is.  The addressed record's fields are
set to those of the request. -/
def applyUpdate (recs : List DnsRecord) (req : UpdateDomainRecordRequest) :
    List DnsRecord :=
  recs.map (fun r =>
    if r.record_id = req.record_id then
      { r with rr := req.rr, type_ := req.type_, value := req.value,
               ttl := req.ttl }
    else r)

/-- The provider state after a run: each update call the run issued,
applied in order to the records the provider held. -/
def postState (recs : List DnsRecord) (res : RunResult) : List DnsRecord :=
  (updateReqs res.calls).foldl applyUpdate recs

/-- A root A record as the provider would return it. -/
def recA : DnsRecord :=
  { record_id := "RecA1", rr := "@", type_ := "A", value := "5.6.7.8", ttl := 600 }

/-- A record of a different RR and type, returned first by the provider. -/
def recW : DnsRecord :=
  { record_id := "rid1", rr := "www", type_ := "CNAME", value := "5.6.7.8",
    ttl := 300 }

/-- A benign world: configured credentials, both curl calls succeed, the
provider holds one record and accepts the update. -/
def wGood : World :=
  { envAccessKeyId := some "LTAI5realkey", envAccessKeySecret := some "realsecret",
    envDebug := none, curlOnPath := true, tokenCall := .out "tok",
    ipCall := .out "1.2.3.4", clientInit := .ok (), describe := .ok [recA],
    update := .ok "RecA1", now := "2026-01-01 00:00:00" }

/-- World with the token call returning only whitespace. -/
def wTok : World := { wGood with tokenCall := .out "  " }

/-- World with the address call returning a non-IPv4 string of three dots. -/
def wDots : World := { wGood with ipCall := .out "..." }

/-- World with both credential environment variables unset, so the
embedded defaults are used. -/
def wUnset : World :=
  { wGood with envAccessKeyId := none, envAccessKeySecret := none }

/-- World where the provider returns a www CNAME record first. -/
def wCname : World := { wGood with describe := .ok [recW] }

/-- World where the detected address equals the record value. -/
def wSame : World := { wGood with ipCall := .out "5.6.7.8" }

/-- World where the provider returns zero records. -/
def wEmpty : World := { wGood with describe := .ok [] }

/-- World where the update call fails with an authentication error. -/
def wAuthErr : World :=
  { wGood with update := .error "Error: InvalidAccessKeyId.NotFound" }

/-- World of a second run right after the run over wGood, with the same
detected address and the provider state left by the first run. -/
def wC9b : World :=
  { wGood with describe := .ok (postState [recA] (Script.main wGood)) }

/-- Unpacking the configuration check: both placeholder tests of main fail. -/
lemma cfgOk_elim (w : World) (h : cfgOkB w = true) :
    ¬(ACCESS_KEY_ID w = "" ∨ ACCESS_KEY_ID w = "LTAIxxxxxxx") ∧
    ¬(ACCESS_KEY_SECRET w = "" ∨ ACCESS_KEY_SECRET w = "PCLxyyyyy") := by
  simp only [cfgOkB, Bool.and_eq_true, Bool.not_eq_true', Bool.or_eq_false_iff,
    beq_eq_false_iff_ne, ne_eq] at h
  constructor
  · rintro (h1 | h1) <;> simp [h1] at h
  · rintro (h1 | h1) <;> simp [h1] at h

/-- C10: the IP detector is total with respect to failure: for every
outcome of the two subprocess calls (missing curl, empty output, timeout,
CalledProcessError, any other exception), get_public_ip returns a value
(an address or None) and never propagates an exception to its caller. -/
theorem C10_get_public_ip_total (w : World) :
    ∃ r : GpiResult, get_public_ip w = Except.ok r := by
  unfold get_public_ip
  split
  · exact ⟨_, rfl⟩
  · cases h : get_public_ip_try w with
    | ok r => exact ⟨r, rfl⟩
    | error p =>
      obtain ⟨e, cs⟩ := p
      cases e <;> exact ⟨_, rfl⟩

/-- C7: if the metadata token call returns an empty response (after
stripping), detection fails, the address-retrieval call is never
attempted, and the process exits with code 1. -/
theorem C7_emptyToken (w : World) (s : String)
    (hcfg : cfgOkB w = true) (hcurl : w.curlOnPath = true)
    (htok : w.tokenCall = .out s) (hempty : pyStrip s = "") :
    returnedIp w = none ∧ Call.ipCall ∉ (Script.main w).calls ∧
      (Script.main w).exit = 1 := by
  have hc := cfgOk_elim w hcfg
  have hg : get_public_ip w = Except.ok
      { ip := none, calls := [Call.tokenCall],
        stderr := ["错误: 无法获取 IMDS token"] } := by
    unfold get_public_ip get_public_ip_try
    rw [htok, hcurl]
    simp [hempty]
  refine ⟨?_, ?_, ?_⟩
  · simp [returnedIp, hg]
  · unfold Script.main
    rw [if_neg hc.1, if_neg hc.2, hg]
    simp
  · unfold Script.main
    rw [if_neg hc.1, if_neg hc.2, hg]

/-- Case analysis of the calls recorded by the try block of get_public_ip,
for both its return values and its escaping exceptions. -/
lemma try_calls (w : World) :
    (∀ g, get_public_ip_try w = Except.ok g →
      g.calls = [Call.tokenCall] ∨ g.calls = [Call.tokenCall, Call.ipCall]) ∧
    (∀ e cs, get_public_ip_try w = Except.error (e, cs) →
      cs = [Call.tokenCall] ∨ cs = [Call.tokenCall, Call.ipCall]) := by
  unfold get_public_ip_try
  cases w.tokenCall with
  | raise e =>
    constructor
    · intro g h; simp at h
    · intro e' cs h
      simp only [Except.error.injEq, Prod.mk.injEq] at h
      left; exact h.2.symm
  | out s =>
    dsimp only
    split
    · constructor
      · intro g h
        simp only [Except.ok.injEq] at h
        subst h; simp
      · intro e' cs h; simp at h
    · cases w.ipCall with
      | raise e =>
        constructor
        · intro g h; simp at h
        · intro e' cs h
          simp only [Except.error.injEq, Prod.mk.injEq] at h
          right; exact h.2.symm
      | out s2 =>
        dsimp only
        split
        · constructor
          · intro g h
            simp only [Except.ok.injEq] at h
            subst h; simp
          · intro e' cs h; simp at h
        · constructor
          · intro g h
            simp only [Except.ok.injEq] at h
            subst h; simp
          · intro e' cs h; simp at h

/-- Case analysis of the calls issued by a successful get_public_ip. -/
lemma gpi_ok_calls (w : World) (g : GpiResult)
    (h : get_public_ip w = Except.ok g) :
    g.calls = [] ∨ g.calls = [Call.tokenCall] ∨
      g.calls = [Call.tokenCall, Call.ipCall] := by
  unfold get_public_ip at h
  by_cases hcurl : w.curlOnPath = false
  · rw [if_pos hcurl] at h
    injection h with h; subst h; simp
  · rw [if_neg hcurl] at h
    cases htry : get_public_ip_try w with
    | ok r =>
      rw [htry] at h
      injection h with h; subst h
      rcases (try_calls w).1 r htry with h1 | h1 <;> simp [h1]
    | error p =>
      obtain ⟨e, cs⟩ := p
      rw [htry] at h
      have hcs := (try_calls w).2 e cs htry
      cases e <;>
        (dsimp only at h; injection h with h; subst h;
         rcases hcs with h1 | h1 <;> simp [h1])

/-- Every subprocess-phase call is one of the two metadata calls. -/
lemma gpi_calls_basic (w : World) (g : GpiResult)
    (h : get_public_ip w = Except.ok g) :
    ∀ c ∈ g.calls, c = Call.tokenCall ∨ c = Call.ipCall := by
  rcases gpi_ok_calls w g h with h1 | h1 | h1 <;> rw [h1] <;>
    intro c hc <;> simp at hc <;> tauto

/-- A list of metadata calls contains no update request. -/
lemma updateReqs_basic (cs : List Call)
    (h : ∀ c ∈ cs, c = Call.tokenCall ∨ c = Call.ipCall) :
    updateReqs cs = [] := by
  induction cs with
  | nil => rfl
  | cons c t ih =>
    rcases h c (by simp) with h1 | h1 <;> subst h1 <;>
      simpa [updateReqs] using ih (fun c hc => h c (by simp [hc]))

/-- A list of metadata calls contains no describe request. -/
lemma describeReqs_basic (cs : List Call)
    (h : ∀ c ∈ cs, c = Call.tokenCall ∨ c = Call.ipCall) :
    describeReqs cs = [] := by
  induction cs with
  | nil => rfl
  | cons c t ih =>
    rcases h c (by simp) with h1 | h1 <;> subst h1 <;>
      simpa [describeReqs] using ih (fun c hc => h c (by simp [hc]))

/-- Reduction of main on the no-op branch (record value equals the
detected address). -/
lemma main_noop (w : World) (g : GpiResult) (ip : String) (r : DnsRecord)
    (rs : List DnsRecord) (hcfg : cfgOkB w = true)
    (hg : get_public_ip w = Except.ok g) (hip : g.ip = some ip)
    (hinit : w.clientInit = Except.ok ())
    (hdesc : w.describe = Except.ok (r :: rs)) (heq : ip = r.value) :
    (Script.main w).exit = 0 ∧
    (Script.main w).calls =
      g.calls ++ [Call.describeCall { domain_name := DOMAIN_NAME }] := by
  have hc := cfgOk_elim w hcfg
  simp only [Script.main, hg, hip, hinit, hdesc, hc.1, hc.2, heq, ite_false,
    ite_true, eq_self_iff_true, if_true, if_false]
  constructor <;> trivial

/-- Reduction of main when the provider returns zero records. -/
lemma main_norec (w : World) (g : GpiResult) (ip : String)
    (hcfg : cfgOkB w = true) (hg : get_public_ip w = Except.ok g)
    (hip : g.ip = some ip) (hinit : w.clientInit = Except.ok ())
    (hdesc : w.describe = Except.ok []) :
    (Script.main w).exit = 1 ∧
    (Script.main w).calls =
      g.calls ++ [Call.describeCall { domain_name := DOMAIN_NAME }] := by
  have hc := cfgOk_elim w hcfg
  simp only [Script.main, hg, hip, hinit, hdesc, hc.1, hc.2, ite_false,
    ite_true, if_true, if_false]
  constructor <;> trivial

/-- Reduction of main on the update branch when the provider accepts the
update. -/
lemma main_upd_ok (w : World) (g : GpiResult) (ip newId : String)
    (r : DnsRecord) (rs : List DnsRecord) (hcfg : cfgOkB w = true)
    (hg : get_public_ip w = Except.ok g) (hip : g.ip = some ip)
    (hinit : w.clientInit = Except.ok ())
    (hdesc : w.describe = Except.ok (r :: rs)) (hne : ip ≠ r.value)
    (hupd : w.update = Except.ok newId) :
    (Script.main w).exit = 0 ∧
    (Script.main w).calls =
      g.calls ++ [Call.describeCall ⟨DOMAIN_NAME⟩,
        Call.updateCall ⟨r.record_id, RR, RECORD_TYPE, ip, TTL⟩] ∧
    s!"记录ID: {newId}" ∈ (Script.main w).stdout := by
  have hc := cfgOk_elim w hcfg
  simp only [Script.main, hg, hip, hinit, hdesc, hupd, hc.1, hc.2, hne,
    ite_false, ite_true, if_true, if_false]
  refine ⟨?_, ?_, ?_⟩ <;> first | trivial | simp

/-- Reduction of main on the update branch when the provider rejects the
update with error message e. -/
lemma main_upd_err (w : World) (g : GpiResult) (ip e : String)
    (r : DnsRecord) (rs : List DnsRecord) (hcfg : cfgOkB w = true)
    (hg : get_public_ip w = Except.ok g) (hip : g.ip = some ip)
    (hinit : w.clientInit = Except.ok ())
    (hdesc : w.describe = Except.ok (r :: rs)) (hne : ip ≠ r.value)
    (hupd : w.update = Except.error e) :
    (Script.main w).exit = 1 ∧
    (Script.main w).calls =
      g.calls ++ [Call.describeCall ⟨DOMAIN_NAME⟩,
        Call.updateCall ⟨r.record_id, RR, RECORD_TYPE, ip, TTL⟩] ∧
    (Script.main w).stderr =
      g.stderr ++ [s!"\n阿里云 API 调用失败: {e}"] ++ errHints e := by
  have hc := cfgOk_elim w hcfg
  simp only [Script.main, apiFail, hg, hip, hinit, hdesc, hupd, hc.1, hc.2,
    hne, ite_false, ite_true, if_true, if_false]
  refine ⟨?_, ?_, ?_⟩ <;> first | trivial | simp

/-- Distribution of updateReqs over list append. -/
lemma updateReqs_append (a b : List Call) :
    updateReqs (a ++ b) = updateReqs a ++ updateReqs b := by
  simp [updateReqs]

/-- Distribution of describeReqs over list append. -/
lemma describeReqs_append (a b : List Call) :
    describeReqs (a ++ b) = describeReqs a ++ describeReqs b := by
  simp [describeReqs]

/-- The hint lines of the except block, expressed through the error
classification. -/
lemma errHints_by_class (e : String) :
    errHints e =
      match classifyErr e with
      | ErrClass.auth => ["提示: ACCESS_KEY_ID 无效，请检查配置"]
      | ErrClass.sig => ["提示: ACCESS_KEY_SECRET 错误，请检查配置"]
      | ErrClass.ram => ["提示: RAM 权限不足，需要 AliyunDNSFullAccess 权限"]
      | ErrClass.other => [] := by
  unfold errHints classifyErr
  split_ifs <;> rfl

/-- The script never issues the provider's record-creation call, in any
run over any world. -/
lemma main_noCreate (w : World) :
    Call.addDomainRecordCall ∉ (Script.main w).calls := by
  intro hmem
  have hga : ∀ g : GpiResult, get_public_ip w = Except.ok g →
      Call.addDomainRecordCall ∉ g.calls := by
    intro g hg hmem2
    rcases gpi_calls_basic w g hg _ hmem2 with h | h <;> simp at h
  simp only [Script.main] at hmem
  split at hmem
  · simp at hmem
  split at hmem
  · simp at hmem
  cases hg : get_public_ip w with
  | error e => rw [hg] at hmem; simp at hmem
  | ok g =>
    rw [hg] at hmem
    dsimp only at hmem
    cases hip : g.ip with
    | none =>
      rw [hip] at hmem
      dsimp only at hmem
      exact hga g hg hmem
    | some ip =>
      rw [hip] at hmem
      dsimp only at hmem
      cases hci : w.clientInit with
      | error e =>
        rw [hci] at hmem
        dsimp only at hmem
        exact hga g hg hmem
      | ok u =>
        rw [hci] at hmem
        dsimp only at hmem
        cases hde : w.describe with
        | error e =>
          rw [hde] at hmem
          dsimp only at hmem
          simp [apiFail] at hmem
          exact hga g hg hmem
        | ok records =>
          rw [hde] at hmem
          dsimp only at hmem
          cases records with
          | nil =>
            dsimp only at hmem
            simp at hmem
            exact hga g hg hmem
          | cons r rs =>
            dsimp only at hmem
            split at hmem
            · simp at hmem
              exact hga g hg hmem
            · cases hup : w.update with
              | error e =>
                rw [hup] at hmem
                dsimp only at hmem
                simp [apiFail] at hmem
                exact hga g hg hmem
              | ok newId =>
                rw [hup] at hmem
                dsimp only at hmem
                simp at hmem
                exact hga g hg hmem

/-- C2: in a run where detection succeeds, the provider returns at least
one record, and the detected address differs from the first record's
value, exactly one update call is issued, carrying that record's
identifier, the detected address as the new value, and the configured TTL
of 600; when the provider accepts the update, the run prints the record
identifier the provider returned and the process exits with code 0. -/
theorem C2_single_update (w : World) (g : GpiResult) (ip : String)
    (r : DnsRecord) (rs : List DnsRecord) (hcfg : cfgOkB w = true)
    (hg : get_public_ip w = Except.ok g) (hip : g.ip = some ip)
    (hinit : w.clientInit = Except.ok ())
    (hdesc : w.describe = Except.ok (r :: rs)) (hne : ip ≠ r.value) :
    updateReqs (Script.main w).calls = [⟨r.record_id, RR, RECORD_TYPE, ip, 600⟩] ∧
    (∀ newId, w.update = Except.ok newId →
      (Script.main w).exit = 0 ∧
      s!"记录ID: {newId}" ∈ (Script.main w).stdout) := by
  have hb := updateReqs_basic g.calls (gpi_calls_basic w g hg)
  constructor
  · cases hup : w.update with
    | ok newId =>
      obtain ⟨_, hcalls, _⟩ :=
        main_upd_ok w g ip newId r rs hcfg hg hip hinit hdesc hne hup
      rw [hcalls, updateReqs_append, hb]
      simp [updateReqs, TTL]
    | error e =>
      obtain ⟨_, hcalls, _⟩ :=
        main_upd_err w g ip e r rs hcfg hg hip hinit hdesc hne hup
      rw [hcalls, updateReqs_append, hb]
      simp [updateReqs, TTL]
  · intro newId hup
    obtain ⟨h1, _, h3⟩ :=
      main_upd_ok w g ip newId r rs hcfg hg hip hinit hdesc hne hup
    exact ⟨h1, h3⟩

/-- C2 witness: the hypotheses of C2_single_update hold at wGood and its
conclusion is obtained there. -/
theorem C2_single_update_witness :
    cfgOkB wGood = true ∧ ("1.2.3.4" : String) ≠ recA.value ∧
    (updateReqs (Script.main wGood).calls =
      [⟨recA.record_id, RR, RECORD_TYPE, "1.2.3.4", 600⟩] ∧
    (∀ newId, wGood.update = Except.ok newId →
      (Script.main wGood).exit = 0 ∧
      s!"记录ID: {newId}" ∈ (Script.main wGood).stdout)) :=
  ⟨by decide, by decide,
    C2_single_update wGood ⟨some "1.2.3.4", [Call.tokenCall, Call.ipCall], []⟩
      "1.2.3.4" recA [] (by decide) rfl rfl rfl rfl (by decide)⟩

/-- C3: in a run where detection succeeds and the detected address equals
the value of the record the reconciler compares against, the process exits
with code 0 and issues no update call. -/
theorem C3_noop (w : World) (g : GpiResult) (ip : String)
    (r : DnsRecord) (rs : List DnsRecord) (hcfg : cfgOkB w = true)
    (hg : get_public_ip w = Except.ok g) (hip : g.ip = some ip)
    (hinit : w.clientInit = Except.ok ())
    (hdesc : w.describe = Except.ok (r :: rs)) (heq : ip = r.value) :
    (Script.main w).exit = 0 ∧ updateReqs (Script.main w).calls = [] := by
  obtain ⟨h1, h2⟩ := main_noop w g ip r rs hcfg hg hip hinit hdesc heq
  refine ⟨h1, ?_⟩
  rw [h2, updateReqs_append, updateReqs_basic g.calls (gpi_calls_basic w g hg)]
  simp [updateReqs]

/-- C3 witness: the hypotheses of C3_noop hold at wSame and its conclusion
is obtained there. -/
theorem C3_noop_witness :
    cfgOkB wSame = true ∧ ("5.6.7.8" : String) = recA.value ∧
    ((Script.main wSame).exit = 0 ∧ updateReqs (Script.main wSame).calls = []) :=
  ⟨by decide, by decide,
    C3_noop wSame ⟨some "5.6.7.8", [Call.tokenCall, Call.ipCall], []⟩
      "5.6.7.8" recA [] (by decide) rfl rfl rfl rfl (by decide)⟩

/-- C1 counterexample: the claim that the record compared and updated has
resource-record name @ and type A for every list the provider returns is
false: when the provider returns a www CNAME record first, the update call
carries that record's identifier, and that record's RR and type are not @
and A. -/
theorem C1_counterexample :
    updateReqs (Script.main wCname).calls =
      [⟨recW.record_id, "@", "A", "1.2.3.4", 600⟩] ∧
    recW.rr = "www" ∧ recW.type_ = "CNAME" ∧
    ¬(recW.rr = "@" ∧ recW.type_ = "A") := by
  refine ⟨?_, ?_, ?_, ?_⟩ <;> decide

/-- C1 (amended): the describe request fixes only the domain goodgood.top;
the record compared, and whose identifier any update call carries, is the
first record the provider returns, whatever its RR and type; the update
request itself carries RR @ and type A. -/
theorem C1_fixed_tuple (w : World) (g : GpiResult) (ip : String)
    (r : DnsRecord) (rs : List DnsRecord) (hcfg : cfgOkB w = true)
    (hg : get_public_ip w = Except.ok g) (hip : g.ip = some ip)
    (hinit : w.clientInit = Except.ok ())
    (hdesc : w.describe = Except.ok (r :: rs)) :
    describeReqs (Script.main w).calls = [⟨"goodgood.top"⟩] ∧
    ∀ req ∈ updateReqs (Script.main w).calls,
      req.record_id = r.record_id ∧ req.rr = "@" ∧ req.type_ = "A" := by
  have hbu := updateReqs_basic g.calls (gpi_calls_basic w g hg)
  have hbd := describeReqs_basic g.calls (gpi_calls_basic w g hg)
  by_cases heq : ip = r.value
  · obtain ⟨_, hcalls⟩ := main_noop w g ip r rs hcfg hg hip hinit hdesc heq
    rw [hcalls, describeReqs_append, updateReqs_append, hbd, hbu]
    constructor
    · simp [describeReqs, DOMAIN_NAME]
    · simp [updateReqs]
  · cases hup : w.update with
    | ok newId =>
      obtain ⟨_, hcalls, _⟩ :=
        main_upd_ok w g ip newId r rs hcfg hg hip hinit hdesc heq hup
      rw [hcalls, describeReqs_append, updateReqs_append, hbd, hbu]
      constructor
      · simp [describeReqs, DOMAIN_NAME]
      · simp [updateReqs, RR, RECORD_TYPE]
    | error e =>
      obtain ⟨_, hcalls, _⟩ :=
        main_upd_err w g ip e r rs hcfg hg hip hinit hdesc heq hup
      rw [hcalls, describeReqs_append, updateReqs_append, hbd, hbu]
      constructor
      · simp [describeReqs, DOMAIN_NAME]
      · simp [updateReqs, RR, RECORD_TYPE]

/-- C1 witness: the hypotheses of C1_fixed_tuple hold at wCname and its
conclusion is obtained there. -/
theorem C1_fixed_tuple_witness :
    cfgOkB wCname = true ∧
    (describeReqs (Script.main wCname).calls = [⟨"goodgood.top"⟩] ∧
    ∀ req ∈ updateReqs (Script.main wCname).calls,
      req.record_id = recW.record_id ∧ req.rr = "@" ∧ req.type_ = "A") :=
  ⟨by decide,
    C1_fixed_tuple wCname ⟨some "1.2.3.4", [Call.tokenCall, Call.ipCall], []⟩
      "1.2.3.4" recW [] (by decide) rfl rfl rfl rfl⟩

/-- C4: the claim that unset credential environment variables are detected
by the placeholder equality check and stop the run before any network call
fails on the code: with both variables unset the defaults LTAI5XXXXX and
PCLxYYYYY differ from the compared placeholders LTAIxxxxxxx and PCLxyyyyy,
so the check passes, the metadata calls are issued, and a run can even
finish with exit code 0. -/
theorem C4_defaults_pass_check :
    ACCESS_KEY_ID wUnset = "LTAI5XXXXX" ∧
    ACCESS_KEY_SECRET wUnset = "PCLxYYYYY" ∧
    cfgOkB wUnset = true ∧
    Call.tokenCall ∈ (Script.main wUnset).calls ∧
    (Script.main wUnset).exit = 0 := by
  refine ⟨?_, ?_, ?_, ?_, ?_⟩ <;> decide

/-- C5 counterexample: the detector's validation checks only the count of
dots, so it returns strings that are not well-formed dotted-quad IPv4
addresses: with the address call answering three lone dots, the value is
returned although it is not a dotted quad. -/
theorem C5_counterexample :
    returnedIp wDots = some "..." ∧ isDottedQuadIPv4 "..." = false := by
  refine ⟨?_, ?_⟩ <;> decide

/-- C5 (amended): once a token is obtained and the address call answers,
the detector returns the stripped response exactly when it is non-empty
and contains exactly three dot characters; it never returns anything other
than that stripped response, but the dot count is the only validation, so
the returned string need not be a well-formed IPv4 address. -/
theorem C5_dot_count (w : World) (ts s : String)
    (hcurl : w.curlOnPath = true) (htok : w.tokenCall = CurlOutcome.out ts)
    (htokne : ¬ pyStrip ts = "") (hip : w.ipCall = CurlOutcome.out s) :
    (returnedIp w = some (pyStrip s) ↔
      pyStrip s ≠ "" ∧ countChar (pyStrip s) '.' = 3) ∧
    (returnedIp w = none ∨ returnedIp w = some (pyStrip s)) := by
  have hcurl' : ¬ (w.curlOnPath = false) := by simp [hcurl]
  unfold returnedIp get_public_ip get_public_ip_try
  rw [htok, hip, if_neg hcurl']
  dsimp only
  rw [if_neg htokne]
  by_cases hcond : pyStrip s ≠ "" ∧ countChar (pyStrip s) '.' = 3
  · rw [if_pos hcond]
    exact ⟨by simp [hcond], Or.inr rfl⟩
  · rw [if_neg hcond]
    exact ⟨by simp [hcond], Or.inl rfl⟩

/-- C5 witness: the hypotheses of C5_dot_count hold at wGood and its
conclusion is obtained there. -/
theorem C5_dot_count_witness :
    ¬ pyStrip "tok" = "" ∧
    ((returnedIp wGood = some (pyStrip "1.2.3.4") ↔
      pyStrip "1.2.3.4" ≠ "" ∧ countChar (pyStrip "1.2.3.4") '.' = 3) ∧
    (returnedIp wGood = none ∨ returnedIp wGood = some (pyStrip "1.2.3.4"))) :=
  ⟨by decide, C5_dot_count wGood "tok" "1.2.3.4" rfl rfl (by decide) rfl⟩

/-- C7 witness: the hypotheses of C7_emptyToken hold at wTok and its
conclusion is obtained there. -/
theorem C7_emptyToken_witness :
    cfgOkB wTok = true ∧ pyStrip "  " = "" ∧
    (returnedIp wTok = none ∧ Call.ipCall ∉ (Script.main wTok).calls ∧
      (Script.main wTok).exit = 1) :=
  ⟨by decide, by decide,
    C7_emptyToken wTok "  " (by decide) rfl rfl (by decide)⟩

/-- C6: for every failing update-phase API call the process exits with a
non-zero code and the failure is always reported; an authentication-class
error (InvalidAccessKeyId) additionally yields the hint naming
ACCESS_KEY_ID, a signature-class error (SignatureDoesNotMatch) the hint
naming ACCESS_KEY_SECRET, an authorization-class error (Forbidden.RAM) the
distinct insufficient-permission hint, and any other failure is reported
generically with no hint line. -/
theorem C6_error_classes (w : World) (g : GpiResult) (ip e : String)
    (r : DnsRecord) (rs : List DnsRecord) (hcfg : cfgOkB w = true)
    (hg : get_public_ip w = Except.ok g) (hip : g.ip = some ip)
    (hinit : w.clientInit = Except.ok ())
    (hdesc : w.describe = Except.ok (r :: rs)) (hne : ip ≠ r.value)
    (hupd : w.update = Except.error e) :
    (Script.main w).exit ≠ 0 ∧
    s!"\n阿里云 API 调用失败: {e}" ∈ (Script.main w).stderr ∧
    (classifyErr e = ErrClass.auth →
      "提示: ACCESS_KEY_ID 无效，请检查配置" ∈ (Script.main w).stderr) ∧
    (classifyErr e = ErrClass.sig →
      "提示: ACCESS_KEY_SECRET 错误，请检查配置" ∈ (Script.main w).stderr) ∧
    (classifyErr e = ErrClass.ram →
      "提示: RAM 权限不足，需要 AliyunDNSFullAccess 权限" ∈ (Script.main w).stderr) ∧
    (classifyErr e = ErrClass.other →
      (Script.main w).stderr = g.stderr ++ [s!"\n阿里云 API 调用失败: {e}"]) := by
  obtain ⟨h1, _, h3⟩ :=
    main_upd_err w g ip e r rs hcfg hg hip hinit hdesc hne hupd
  rw [errHints_by_class] at h3
  refine ⟨by rw [h1]; decide, ?_, ?_, ?_, ?_, ?_⟩ <;>
    [skip; intro hcl; intro hcl; intro hcl; intro hcl] <;>
    rw [h3] <;> try rw [hcl]
  · simp
  · simp
  · simp
  · simp
  · simp

/-- C6 witness: the hypotheses of C6_error_classes hold at wAuthErr and
its conclusion is obtained there. -/
theorem C6_error_classes_witness :
    cfgOkB wAuthErr = true ∧ ("1.2.3.4" : String) ≠ recA.value ∧
    ((Script.main wAuthErr).exit ≠ 0 ∧
    s!"\n阿里云 API 调用失败: Error: InvalidAccessKeyId.NotFound" ∈
      (Script.main wAuthErr).stderr ∧
    (classifyErr "Error: InvalidAccessKeyId.NotFound" = ErrClass.auth →
      "提示: ACCESS_KEY_ID 无效，请检查配置" ∈ (Script.main wAuthErr).stderr) ∧
    (classifyErr "Error: InvalidAccessKeyId.NotFound" = ErrClass.sig →
      "提示: ACCESS_KEY_SECRET 错误，请检查配置" ∈ (Script.main wAuthErr).stderr) ∧
    (classifyErr "Error: InvalidAccessKeyId.NotFound" = ErrClass.ram →
      "提示: RAM 权限不足，需要 AliyunDNSFullAccess 权限" ∈ (Script.main wAuthErr).stderr) ∧
    (classifyErr "Error: InvalidAccessKeyId.NotFound" = ErrClass.other →
      (Script.main wAuthErr).stderr =
        [] ++ [s!"\n阿里云 API 调用失败: Error: InvalidAccessKeyId.NotFound"])) :=
  ⟨by decide, by decide,
    C6_error_classes wAuthErr ⟨some "1.2.3.4", [Call.tokenCall, Call.ipCall], []⟩
      "1.2.3.4" "Error: InvalidAccessKeyId.NotFound" recA []
      (by decide) rfl rfl rfl rfl (by decide) rfl⟩

/-- C8: when the provider's describe response contains zero records, the
process exits with code 1 and issues no update call; and in every run over
every world the script never issues the provider's record-creation call. -/
theorem C8_zero_records (w : World) (g : GpiResult) (ip : String)
    (hcfg : cfgOkB w = true) (hg : get_public_ip w = Except.ok g)
    (hip : g.ip = some ip) (hinit : w.clientInit = Except.ok ())
    (hdesc : w.describe = Except.ok []) :
    (Script.main w).exit = 1 ∧ updateReqs (Script.main w).calls = [] ∧
    ∀ w' : World, Call.addDomainRecordCall ∉ (Script.main w').calls := by
  obtain ⟨h1, h2⟩ := main_norec w g ip hcfg hg hip hinit hdesc
  refine ⟨h1, ?_, fun w' => main_noCreate w'⟩
  rw [h2, updateReqs_append, updateReqs_basic g.calls (gpi_calls_basic w g hg)]
  simp [updateReqs]

/-- C8 witness: the hypotheses of C8_zero_records hold at wEmpty and its
conclusion is obtained there. -/
theorem C8_zero_records_witness :
    cfgOkB wEmpty = true ∧
    ((Script.main wEmpty).exit = 1 ∧ updateReqs (Script.main wEmpty).calls = [] ∧
    ∀ w' : World, Call.addDomainRecordCall ∉ (Script.main w').calls) :=
  ⟨by decide,
    C8_zero_records wEmpty ⟨some "1.2.3.4", [Call.tokenCall, Call.ipCall], []⟩
      "1.2.3.4" (by decide) rfl rfl rfl rfl⟩

/-- C9: idempotence of reconciliation: if a run over records r :: rs ends
with exit code 0 and the detected address does not change, a second run
over the provider state the first run left behind takes the no-op branch:
it exits 0 and issues no update call. -/
theorem C9_idempotent (w1 w2 : World) (g1 g2 : GpiResult) (ip : String)
    (r : DnsRecord) (rs : List DnsRecord)
    (hcfg1 : cfgOkB w1 = true) (hg1 : get_public_ip w1 = Except.ok g1)
    (hip1 : g1.ip = some ip) (hinit1 : w1.clientInit = Except.ok ())
    (hdesc1 : w1.describe = Except.ok (r :: rs))
    (hexit : (Script.main w1).exit = 0)
    (hcfg2 : cfgOkB w2 = true) (hg2 : get_public_ip w2 = Except.ok g2)
    (hip2 : g2.ip = some ip) (hinit2 : w2.clientInit = Except.ok ())
    (hdesc2 : w2.describe = Except.ok (postState (r :: rs) (Script.main w1))) :
    (Script.main w2).exit = 0 ∧ updateReqs (Script.main w2).calls = [] := by
  have hb1 := updateReqs_basic g1.calls (gpi_calls_basic w1 g1 hg1)
  have hb2 := updateReqs_basic g2.calls (gpi_calls_basic w2 g2 hg2)
  by_cases heq : ip = r.value
  · obtain ⟨_, hcalls⟩ :=
      main_noop w1 g1 ip r rs hcfg1 hg1 hip1 hinit1 hdesc1 heq
    have hpost : postState (r :: rs) (Script.main w1) = r :: rs := by
      unfold postState
      rw [hcalls, updateReqs_append, hb1]
      simp [updateReqs]
    rw [hpost] at hdesc2
    obtain ⟨h1, h2⟩ :=
      main_noop w2 g2 ip r rs hcfg2 hg2 hip2 hinit2 hdesc2 heq
    refine ⟨h1, ?_⟩
    rw [h2, updateReqs_append, hb2]
    simp [updateReqs]
  · cases hup : w1.update with
    | error e =>
      obtain ⟨h1, _, _⟩ :=
        main_upd_err w1 g1 ip e r rs hcfg1 hg1 hip1 hinit1 hdesc1 heq hup
      rw [hexit] at h1
      exact absurd h1 (by decide)
    | ok newId =>
      obtain ⟨_, hcalls, _⟩ :=
        main_upd_ok w1 g1 ip newId r rs hcfg1 hg1 hip1 hinit1 hdesc1 heq hup
      have hpost : postState (r :: rs) (Script.main w1) =
          ({ r with rr := RR, type_ := RECORD_TYPE, value := ip, ttl := TTL } ::
           rs.map (fun x => if x.record_id = r.record_id then
             { x with rr := RR, type_ := RECORD_TYPE, value := ip, ttl := TTL }
           else x)) := by
        unfold postState
        rw [hcalls, updateReqs_append, hb1]
        simp [updateReqs, applyUpdate]
      rw [hpost] at hdesc2
      obtain ⟨h1, h2⟩ :=
        main_noop w2 g2 ip _ _ hcfg2 hg2 hip2 hinit2 hdesc2 rfl
      refine ⟨h1, ?_⟩
      rw [h2, updateReqs_append, hb2]
      simp [updateReqs]

/-- C9 witness: the hypotheses of C9_idempotent hold for the run over
wGood followed by the run over wC9b, and its conclusion is obtained
there. -/
theorem C9_idempotent_witness :
    cfgOkB wGood = true ∧ (Script.main wGood).exit = 0 ∧
    ((Script.main wC9b).exit = 0 ∧ updateReqs (Script.main wC9b).calls = []) :=
  ⟨by decide, by decide,
    C9_idempotent wGood wC9b
      ⟨some "1.2.3.4", [Call.tokenCall, Call.ipCall], []⟩
      ⟨some "1.2.3.4", [Call.tokenCall, Call.ipCall], []⟩
      "1.2.3.4" recA []
      (by decide) rfl rfl rfl rfl (by decide)
      (by decide) rfl rfl rfl rfl⟩
